import Mathlib

/-!
Verification of the cgroup detection and query layer of
`src/hotspot/os/linux/cgroupSubsystem_linux.hpp`.

Shallow embedding conventions:
* C strings are Lean `String`s; null pointers are `Option`.
* `jlong` is `Int` (signed 64-bit values; C++ signed overflow is undefined,
  so theorems carry range hypotheses where relevant instead of wrapping).
* Files are `Option (List String)`: `none` models a failed `fopen`, and the
  list holds the successive lines `fgets` would return (each at most
  `MAXPATHLEN` characters, trailing newline included when present).
* `sscanf(line, scan_fmt, out)` with a single conversion is abstracted as a
  function `scan : String → Option T`: `some v` models `matched == 1` with
  value `v` stored, `none` models any other `sscanf` result.
-/

set_option autoImplicit false

namespace CgroupLinux

/-- Error sentinel returned by the readers (`OSCONTAINER_ERROR` from
`osContainer_linux.hpp`, value -2 in the JDK sources). -/
def OSCONTAINER_ERROR : Int := -2

/-- Maximum path length on Linux (`MAXPATHLEN` from `<sys/param.h>`). -/
def MAXPATHLEN : Nat := 4096

/-- `PER_CPU_SHARES` from cgroupSubsystem_linux.hpp line 55. -/
def PER_CPU_SHARES : Int := 1024

/-- Detection flag `CGROUPS_V1` (cgroupSubsystem_linux.hpp line 57). -/
def CGROUPS_V1 : Nat := 1

/-- Detection flag `CGROUPS_V2` (line 58). -/
def CGROUPS_V2 : Nat := 2

/-- Detection flag `INVALID_CGROUPS_V2` (line 59). -/
def INVALID_CGROUPS_V2 : Nat := 3

/-- Detection flag `INVALID_CGROUPS_V1` (line 60). -/
def INVALID_CGROUPS_V1 : Nat := 4

/-- Detection flag `INVALID_CGROUPS_NO_MOUNT` (line 61). -/
def INVALID_CGROUPS_NO_MOUNT : Nat := 5

/-- Detection flag `INVALID_CGROUPS_GENERIC` (line 62). -/
def INVALID_CGROUPS_GENERIC : Nat := 6

/-- `min_jlong`: the smallest signed 64-bit value, -2^63. -/
def min_jlong : Int := -(2 ^ 63)

/-- `max_jlong`: the largest signed 64-bit value, 2^63 - 1. -/
def max_jlong : Int := 2 ^ 63 - 1

/-! ## CachedMetric (cgroupSubsystem_linux.hpp lines 247-269)

The C++ class reads the monotonic clock through `os::elapsed_counter()`;
the embedding passes the current counter value explicitly to the two
operations that consult it. -/

/-- State of a `CachedMetric`: the two `volatile jlong` fields. -/
structure CachedMetric where
  _metric : Int
  _next_check_counter : Int
  deriving Repr, DecidableEq

namespace CachedMetric

/-- The `CachedMetric()` constructor: `_metric = -1; _next_check_counter = min_jlong;`. -/
def init : CachedMetric := { _metric := -1, _next_check_counter := min_jlong }

/-- `should_check_metric()`: `os::elapsed_counter() > _next_check_counter`.
`elapsed_counter` is the current value of the monotonic counter. -/
def should_check_metric (m : CachedMetric) (elapsed_counter : Int) : Bool :=
  elapsed_counter > m._next_check_counter

/-- `value()`: returns `_metric`. -/
def value (m : CachedMetric) : Int := m._metric

/-- `set_value(value, timeout)`: stores the value and arms the deadline at
`os::elapsed_counter() + timeout`, where `elapsed_counter` is the counter
value observed during the call. -/
def set_value (m : CachedMetric) (v timeout elapsed_counter : Int) : CachedMetric :=
  { m with _metric := v, _next_check_counter := elapsed_counter + timeout }

end CachedMetric

/-! ## CgroupInfo (cgroupSubsystem_linux.hpp lines 341-365) -/

/-- Detection record populated from `/proc/cgroups`, `/proc/self/cgroup`
and `/proc/self/mountinfo`; the `char*` fields are `Option String`
(`none` models a null pointer). -/
structure CgroupInfo where
  _name : Option String
  _hierarchy_id : Int
  _enabled : Bool
  _data_complete : Bool
  _cgroup_path : Option String
  _root_mount_path : Option String
  _mount_path : Option String
  deriving Repr, DecidableEq

namespace CgroupInfo

/-- The `CgroupInfo()` constructor (lines 355-363): every pointer null,
`_hierarchy_id = -1`, both booleans false. -/
def init : CgroupInfo :=
  { _name := none
    _hierarchy_id := -1
    _enabled := false
    _data_complete := false
    _cgroup_path := none
    _root_mount_path := none
    _mount_path := none }

end CgroupInfo

/-! ## Single-line pseudo-file reader (lines 101-127) -/

/-- Embedding of `__cg_file_contents_impl`: open the file (`none` = open
failed), read the first line (`some []` = `fgets` returned null on an empty
file), and `sscanf` it. Returns the status (`0` or `OSCONTAINER_ERROR`)
together with the value stored through the return pointer (`none` when no
single-value match happened). -/
def cg_file_contents_impl {T : Type} (file : Option (List String))
    (scan : String → Option T) : Int × Option T :=
  match file with
  | none => (OSCONTAINER_ERROR, none)
  | some [] => (OSCONTAINER_ERROR, none)
  | some (line :: _) =>
    match scan line with
    | some v => (0, some v)
    | none => (OSCONTAINER_ERROR, none)

/-- Accumulate a decimal digit run into a natural number. -/
def digits_to_nat : List Char → Nat → Nat
  | [], acc => acc
  | c :: cs, acc => digits_to_nat cs (acc * 10 + (c.toNat - 48))

/-- Concrete scanner modelling `sscanf(s, "%d", &x)` on a decimal value:
skip leading white space, then read a nonempty digit run. -/
def scan_dec (s : String) : Option Int :=
  let t := s.toList.dropWhile (fun c => c = ' ' || c = '\t' || c = '\n')
  let digits := t.takeWhile Char.isDigit
  if digits.isEmpty then none else some (Int.ofNat (digits_to_nat digits 0))

/-! ## Multi-line pseudo-file reader (lines 165-210) -/

/-- C `isspace` in the default locale: space, horizontal tab, newline,
vertical tab, form feed, carriage return. -/
def c_isspace (c : Char) : Bool :=
  c = ' ' || c = '\t' || c = '\n' || c = '\x0b' || c = '\x0c' || c = '\x0d'

/-- The character `line[key_len]` under C string semantics: the NUL
terminator when the index is exactly the line's length. -/
def char_after_key (line key : String) : Char :=
  line.toList.getD key.toList.length '\x00'

/-- The match test of the loop body in `__cg_file_multi_line_impl`
(lines 189-193): `strstr(line, key) == line` (the first occurrence of the
key is at position 0, i.e. the key is a prefix of the line), the character
right after the key is white space, and it is not the terminating
newline. -/
def line_key_match (key line : String) : Bool :=
  key.toList.isPrefixOf line.toList && c_isspace (char_after_key line key) &&
    char_after_key line key != '\n'

/-- `value_substr = line + key_len + 1` (line 195): the remainder of the
line after the key and the single white-space character following it. -/
def value_substr (line key : String) : String :=
  String.mk (line.toList.drop (key.toList.length + 1))

/-- The net effect of one loop iteration on one line: `some v` exactly when
the line passes the key-match test and `sscanf` on the remainder matches
one value `v`. -/
def line_scan_result {T : Type} (key : String) (scan : String → Option T)
    (line : String) : Option T :=
  if line_key_match key line then scan (value_substr line key) else none

/-- The scan loop of `__cg_file_multi_line_impl` (lines 188-202): visit the
lines in order, run `sscanf` on the remainder of each key-matching line,
and stop at the first line whose scan matches one value; a key-matching
line whose scan fails does not stop the loop. -/
def cg_multi_line_loop {T : Type} (key : String) (scan : String → Option T) :
    List String → Int × Option T
  | [] => (OSCONTAINER_ERROR, none)
  | line :: rest =>
    match line_scan_result key scan line with
    | some v => (0, some v)
    | none => cg_multi_line_loop key scan rest

/-- Embedding of `__cg_file_multi_line_impl` (lines 165-210): fail when the
file does not open or is empty; otherwise run the scan loop over all lines
(the line read before the loop to detect emptiness is also the first line
the loop visits). -/
def cg_file_multi_line_impl {T : Type} (file : Option (List String))
    (key : String) (scan : String → Option T) : Int × Option T :=
  match file with
  | none => (OSCONTAINER_ERROR, none)
  | some [] => (OSCONTAINER_ERROR, none)
  | some lines => cg_multi_line_loop key scan lines

/-! ## CgroupController and the controller-level wrappers
(lines 72-97, 132-160, 215-244) -/

/-- State of a `CgroupController`: the strings from mountinfo, the raw
cgroup path, and the constructed subsystem directory; the two latter
`char*` fields start null. -/
structure CgroupController where
  _root : String
  _mount_point : String
  _cgroup_path : Option String
  _path : Option String
  deriving Repr, DecidableEq

namespace CgroupController

/-- The `CgroupController(root, mountpoint)` constructor (line 85):
duplicates both strings; `_cgroup_path` and `_path` keep their null
initializers (lines 79, 82). -/
def mkController (root mountpoint : String) : CgroupController :=
  { _root := root, _mount_point := mountpoint, _cgroup_path := none, _path := none }

/-- `subsystem_path()` (line 94): returns `_path`, possibly null. -/
def subsystem_path (c : CgroupController) : Option String := c._path

end CgroupController

/-- Embedding of `cg_file_contents_ctrl` (lines 132-160). `fs` maps
absolute paths to openable files; `returnval_nonnull` models whether the
caller passed a non-null return pointer (the diagnostic log lines emitted
on the failure paths go to an external collaborator and carry no data
flow). -/
def cg_file_contents_ctrl {T : Type} (fs : String → Option (List String))
    (c : Option CgroupController) (filename : String)
    (scan_fmt : Option (String → Option T)) (returnval_nonnull : Bool) :
    Int × Option T :=
  match c with
  | none => (OSCONTAINER_ERROR, none)
  | some ctrl =>
    match ctrl.subsystem_path with
    | none => (OSCONTAINER_ERROR, none)
    | some sp =>
      match scan_fmt with
      | none => (OSCONTAINER_ERROR, none)
      | some scan =>
        if returnval_nonnull = false then (OSCONTAINER_ERROR, none)
        else if (sp ++ filename).length > MAXPATHLEN then (OSCONTAINER_ERROR, none)
        else cg_file_contents_impl (fs (sp ++ filename)) scan

/-- Embedding of `cg_file_multi_line_ctrl` (lines 215-244): the same guard
ladder with the additional null check on `key`. -/
def cg_file_multi_line_ctrl {T : Type} (fs : String → Option (List String))
    (c : Option CgroupController) (filename : String) (key : Option String)
    (scan_fmt : Option (String → Option T)) (returnval_nonnull : Bool) :
    Int × Option T :=
  match c with
  | none => (OSCONTAINER_ERROR, none)
  | some ctrl =>
    match ctrl.subsystem_path with
    | none => (OSCONTAINER_ERROR, none)
    | some sp =>
      match key, scan_fmt with
      | some k, some scan =>
        if returnval_nonnull = false then (OSCONTAINER_ERROR, none)
        else if (sp ++ filename).length > MAXPATHLEN then (OSCONTAINER_ERROR, none)
        else cg_file_multi_line_impl (fs (sp ++ filename)) k scan
      | _, _ => (OSCONTAINER_ERROR, none)

/-! ## Effective processor count

Modelled from the spec: the body of `CgroupSubsystem::active_processor_count`
(declared at cgroupSubsystem_linux.hpp line 314) is not among the sources;
only the declaration and the `PER_CPU_SHARES` constant are. The model
follows spec section 4.5. -/

/-- Ceiling division `⌈a / b⌉` for a positive divisor `b`, computed as
`(a + b - 1) / b` with Euclidean division. -/
def ceil_div (a b : Int) : Int := (a + b - 1) / b

/-- Modelled from the spec: `active_processor_count` — when quota and
period are both set and positive the effective count is
`ceil(quota / period)` clamped to at least 1 and at most the host's
processor count; otherwise, when shares are set (above the `-1`
default/unset sentinel), it is `ceil(shares / PER_CPU_SHARES)` clamped the
same way; otherwise the host processor count is returned unmodified. -/
def active_processor_count (host_cpu_count quota period shares : Int) : Int :=
  if 0 < quota ∧ 0 < period then
    max 1 (min (ceil_div quota period) host_cpu_count)
  else if -1 < shares then
    max 1 (min (ceil_div shares PER_CPU_SHARES) host_cpu_count)
  else
    host_cpu_count

/-! ## Controller path resolution

Modelled from the spec: the bodies of `CgroupController::trim_path`,
`set_subsystem_path` and `set_path` (declared at cgroupSubsystem_linux.hpp
lines 74, 93 and 96) are not among the sources. The model follows spec
sections 4.2 and 8. -/

/-- Split a character list at `/` separators (structural recursion, so
segments of concrete paths evaluate in the kernel). -/
def split_slash : List Char → List (List Char)
  | [] => [[]]
  | c :: cs =>
    let rest := split_slash cs
    if c = '/' then [] :: rest
    else
      match rest with
      | [] => [[c]]
      | s :: tail => (c :: s) :: tail

/-- The nonempty segments of a path. -/
def path_segments (p : String) : List (List Char) :=
  (split_slash p.toList).filter (fun s => !s.isEmpty)

/-- The depth of a path: its number of nonempty segments. -/
def path_depth (p : String) : Nat := (path_segments p).length

/-- Rebuild a path from segments, one leading `/` per segment. -/
def join_segments (segs : List (List Char)) : String :=
  segs.foldl (fun acc s => acc ++ "/" ++ String.mk s) ""

/-- Modelled from the spec: drop `n` leading segments from a path;
fails (`none`) when `n` exceeds the path's actual depth. -/
def trim_segments_from_path (p : String) (n : Nat) : Option String :=
  let segs := path_segments p
  if n > segs.length then none
  else some (join_segments (segs.drop n))

namespace CgroupController

/-- Modelled from the spec: `trim_path(dir_count)` — remove `dir_count`
leading segments from the stored cgroup path and install
`_mount_point ++ trimmed` as the subsystem path; fail (return `false`,
controller left unchanged, `_path` still unset) when `dir_count` exceeds
the path's actual depth or no cgroup path is stored, without reading out
of bounds. -/
def trim_path (c : CgroupController) (dir_count : Nat) :
    Bool × CgroupController :=
  match c._cgroup_path with
  | none => (false, c)
  | some cg =>
    match trim_segments_from_path cg dir_count with
    | none => (false, c)
    | some trimmed => (true, { c with _path := some (c._mount_point ++ trimmed) })

end CgroupController

/-- Modelled from the spec: the path-resolution rule of
`set_subsystem_path` — when the mount root is a prefix of the cgroup path
longer than the trivial root `/`, the redundant prefix is trimmed from the
cgroup path by the number of its path segments; the final absolute path is
the mount point concatenated with the trimmed cgroup path. -/
def resolve_path (root mount_point cgroup_path : String) : Option String :=
  if root ≠ "/" ∧ root.toList.isPrefixOf cgroup_path.toList then
    (trim_segments_from_path cgroup_path (path_depth root)).map
      (fun trimmed => mount_point ++ trimmed)
  else some (mount_point ++ cgroup_path)

namespace CgroupController

/-- Modelled from the spec: `set_subsystem_path(cgroup_path)` — resolve
`(root, mountPoint, cgroupPath)` to the absolute subsystem directory;
the path is stored once and is immutable thereafter. -/
def set_subsystem_path (c : CgroupController) (cgroup_path : String) :
    CgroupController :=
  match c._path with
  | some _ => c
  | none =>
    { c with _cgroup_path := some cgroup_path,
             _path := resolve_path c._root c._mount_point cgroup_path }

end CgroupController

/-! ## Cgroup subsystem facade

Modelled from the spec: the bodies of the `CgroupSubsystem` numeric
accessors (declared at cgroupSubsystem_linux.hpp lines 313-334) are not
among the sources; only their declarations are. Spec sections 4.5 and 7:
each accessor delegates to an underlying controller read that may fail,
and a failed read surfaces as the `-1` "unknown/unavailable" sentinel
rather than an exception, so every accessor is total. -/

/-- Map an underlying controller read (`none` models any failure: missing
file, parse error, unavailable controller) to the accessor's result. -/
def accessor_of_read (read : Option Int) : Int :=
  match read with
  | none => -1
  | some v => v

/-- The underlying controller reads backing the thirteen numeric accessors
of the facade, one field per accessor. -/
structure CgroupSubsystem where
  cpu_quota_read : Option Int
  cpu_period_read : Option Int
  cpu_shares_read : Option Int
  memory_limit_read : Option Int
  memory_usage_read : Option Int
  memory_and_swap_limit_read : Option Int
  memory_and_swap_usage_read : Option Int
  memory_soft_limit_read : Option Int
  memory_max_usage_read : Option Int
  rss_usage_read : Option Int
  cache_usage_read : Option Int
  pids_max_read : Option Int
  pids_current_read : Option Int
  deriving Repr, DecidableEq

namespace CgroupSubsystem

/-- `cpu_quota()` (declared at line 319). -/
def cpu_quota (s : CgroupSubsystem) : Int := accessor_of_read s.cpu_quota_read

/-- `cpu_period()` (declared at line 320). -/
def cpu_period (s : CgroupSubsystem) : Int := accessor_of_read s.cpu_period_read

/-- `cpu_shares()` (declared at line 321). -/
def cpu_shares (s : CgroupSubsystem) : Int := accessor_of_read s.cpu_shares_read

/-- `memory_limit_in_bytes()` (declared at line 313). -/
def memory_limit_in_bytes (s : CgroupSubsystem) : Int :=
  accessor_of_read s.memory_limit_read

/-- `memory_usage_in_bytes()` (declared at line 328). -/
def memory_usage_in_bytes (s : CgroupSubsystem) : Int :=
  accessor_of_read s.memory_usage_read

/-- `memory_and_swap_limit_in_bytes()` (declared at line 329). -/
def memory_and_swap_limit_in_bytes (s : CgroupSubsystem) : Int :=
  accessor_of_read s.memory_and_swap_limit_read

/-- `memory_and_swap_usage_in_bytes()` (declared at line 330). -/
def memory_and_swap_usage_in_bytes (s : CgroupSubsystem) : Int :=
  accessor_of_read s.memory_and_swap_usage_read

/-- `memory_soft_limit_in_bytes()` (declared at line 331). -/
def memory_soft_limit_in_bytes (s : CgroupSubsystem) : Int :=
  accessor_of_read s.memory_soft_limit_read

/-- `memory_max_usage_in_bytes()` (declared at line 332). -/
def memory_max_usage_in_bytes (s : CgroupSubsystem) : Int :=
  accessor_of_read s.memory_max_usage_read

/-- `rss_usage_in_bytes()` (declared at line 333). -/
def rss_usage_in_bytes (s : CgroupSubsystem) : Int :=
  accessor_of_read s.rss_usage_read

/-- `cache_usage_in_bytes()` (declared at line 334). -/
def cache_usage_in_bytes (s : CgroupSubsystem) : Int :=
  accessor_of_read s.cache_usage_read

/-- `pids_max()` (declared at line 316). -/
def pids_max (s : CgroupSubsystem) : Int := accessor_of_read s.pids_max_read

/-- `pids_current()` (declared at line 317). -/
def pids_current (s : CgroupSubsystem) : Int :=
  accessor_of_read s.pids_current_read

end CgroupSubsystem

/-- The thirteen numeric public accessors of the facade, each paired with
the underlying read it delegates to. -/
def numeric_accessors :
    List ((CgroupSubsystem → Int) × (CgroupSubsystem → Option Int)) :=
  [(CgroupSubsystem.cpu_quota, fun s => s.cpu_quota_read),
   (CgroupSubsystem.cpu_period, fun s => s.cpu_period_read),
   (CgroupSubsystem.cpu_shares, fun s => s.cpu_shares_read),
   (CgroupSubsystem.memory_limit_in_bytes, fun s => s.memory_limit_read),
   (CgroupSubsystem.memory_usage_in_bytes, fun s => s.memory_usage_read),
   (CgroupSubsystem.memory_and_swap_limit_in_bytes,
     fun s => s.memory_and_swap_limit_read),
   (CgroupSubsystem.memory_and_swap_usage_in_bytes,
     fun s => s.memory_and_swap_usage_read),
   (CgroupSubsystem.memory_soft_limit_in_bytes, fun s => s.memory_soft_limit_read),
   (CgroupSubsystem.memory_max_usage_in_bytes, fun s => s.memory_max_usage_read),
   (CgroupSubsystem.rss_usage_in_bytes, fun s => s.rss_usage_read),
   (CgroupSubsystem.cache_usage_in_bytes, fun s => s.cache_usage_read),
   (CgroupSubsystem.pids_max, fun s => s.pids_max_read),
   (CgroupSubsystem.pids_current, fun s => s.pids_current_read)]

/-! ## Subsystem factory — detection state machine

Modelled from the spec: the body of
`CgroupSubsystemFactory::determine_type` (declared at
cgroupSubsystem_linux.hpp lines 393-397) and of
`CgroupSubsystemFactory::create` (line 371) are not among the sources;
only their declarations, the flag constants and the `CgroupInfo` record
are. The model follows spec section 4.6: the three pseudo-files arrive
already parsed into rows; `none` for a whole file models an unreadable
file (an unexpected parse failure). -/

/-- A row of `/proc/cgroups`: controller name, hierarchy ID, enabled flag
(the num_cgroups column is unused by detection). -/
structure ProcCgroupsRow where
  name : String
  hierarchy_id : Int
  enabled : Bool
  deriving Repr, DecidableEq

/-- A row of `/proc/self/cgroup`: hierarchy ID, attached controller names
(empty on the v2 unified line) and the process's cgroup path. -/
structure ProcSelfCgroupRow where
  hierarchy_id : Int
  controllers : List String
  cgroup_path : String
  deriving Repr, DecidableEq

/-- A row of `/proc/self/mountinfo` relevant to detection: mount root,
mount point, filesystem type (`cgroup` or `cgroup2`) and the controller
names among the mount's super options. -/
structure MountInfoRow where
  root : String
  mount_point : String
  fs_type : String
  controllers : List String
  deriving Repr, DecidableEq

/-- The five monitored controllers, in the index order fixed by
`CPUSET_IDX` through `PIDS_IDX` (cgroupSubsystem_linux.hpp lines 64-70). -/
def monitored_controllers : List String :=
  ["cpuset", "cpu", "cpuacct", "memory", "pids"]

/-- Fresh `CgroupInfo` records for the five monitored controllers, one
detection attempt's worth of state. -/
def init_infos : List CgroupInfo :=
  monitored_controllers.map (fun n => { CgroupInfo.init with _name := some n })

/-- First stage, from `/proc/cgroups`: record each monitored controller's
hierarchy ID and enabled flag. -/
def apply_proc_cgroups (rows : List ProcCgroupsRow) (info : CgroupInfo) :
    CgroupInfo :=
  match rows.find? (fun r => info._name = some r.name) with
  | some r => { info with _hierarchy_id := r.hierarchy_id, _enabled := r.enabled }
  | none => info

/-- Second stage, from `/proc/self/mountinfo`: record the mount point and
root mount path of the cgroup v1 mount carrying each controller. -/
def apply_mountinfo (rows : List MountInfoRow) (info : CgroupInfo) :
    CgroupInfo :=
  match rows.find? (fun r =>
      r.fs_type = "cgroup" &&
        match info._name with
        | some n => r.controllers.contains n
        | none => false) with
  | some r =>
    { info with _mount_path := some r.mount_point,
                _root_mount_path := some r.root }
  | none => info

/-- Third stage, from `/proc/self/cgroup`: record each controller's cgroup
path; the controller's v1 data is complete once both a mount path and a
cgroup path have been resolved. -/
def apply_self_cgroup (rows : List ProcSelfCgroupRow) (info : CgroupInfo) :
    CgroupInfo :=
  match rows.find? (fun r =>
      match info._name with
      | some n => r.controllers.contains n
      | none => false) with
  | some r =>
    { info with _cgroup_path := some r.cgroup_path,
                _data_complete := info._mount_path.isSome }
  | none => info

/-- The unified-hierarchy (`cgroup2`) mount, when present. -/
def unified_mount (rows : List MountInfoRow) : Option MountInfoRow :=
  rows.find? (fun r => r.fs_type = "cgroup2")

/-- The unified-hierarchy row of `/proc/self/cgroup` (hierarchy 0, no
attached controllers), when present. -/
def unified_self_row (rows : List ProcSelfCgroupRow) : Option ProcSelfCgroupRow :=
  rows.find? (fun r => r.hierarchy_id = 0 && r.controllers.isEmpty)

/-- Modelled from the spec: `determine_type` — populate the five
`CgroupInfo` records from the three pseudo-files, then classify. With no
enabled controller on a nonzero hierarchy the layout is a v2 candidate:
a unified mount plus a unified self row classify `CGROUPS_V2`, a missing
unified mount classifies `INVALID_CGROUPS_NO_MOUNT`, and an inconsistent
unified layout classifies `INVALID_CGROUPS_V2`. Otherwise the layout is a
v1 candidate: every enabled controller with complete data classifies
`CGROUPS_V1`, an enabled controller without a mount classifies
`INVALID_CGROUPS_NO_MOUNT`, and any other inconsistency classifies
`INVALID_CGROUPS_V1`. An unreadable pseudo-file classifies
`INVALID_CGROUPS_GENERIC`. -/
def determine_type (proc_cgroups : Option (List ProcCgroupsRow))
    (proc_self_cgroup : Option (List ProcSelfCgroupRow))
    (proc_self_mountinfo : Option (List MountInfoRow)) : Nat :=
  match proc_cgroups, proc_self_cgroup, proc_self_mountinfo with
  | some cgs, some scs, some mis =>
    let infos := ((init_infos.map (apply_proc_cgroups cgs)).map
        (apply_mountinfo mis)).map (apply_self_cgroup scs)
    if infos.any (fun i => i._enabled && i._hierarchy_id != 0) then
      if infos.all (fun i => !i._enabled || i._data_complete) then CGROUPS_V1
      else if infos.any (fun i => i._enabled && i._mount_path.isNone) then
        INVALID_CGROUPS_NO_MOUNT
      else INVALID_CGROUPS_V1
    else
      if (unified_mount mis).isSome && (unified_self_row scs).isSome then
        CGROUPS_V2
      else if (unified_mount mis).isNone then INVALID_CGROUPS_NO_MOUNT
      else INVALID_CGROUPS_V2
  | _, _, _ => INVALID_CGROUPS_GENERIC

/-- The two concrete controller variant sets a subsystem can be built
from. -/
inductive SubsystemVariant where
  | v1
  | v2
  deriving Repr, DecidableEq

/-- Modelled from the spec: `CgroupSubsystemFactory::create` — only the
`CGROUPS_V1` and `CGROUPS_V2` classifications instantiate controller
variants; every other classification yields no subsystem at all, never a
partially built one. -/
def factory_create (flags : Nat) : Option SubsystemVariant :=
  if flags = CGROUPS_V1 then some SubsystemVariant.v1
  else if flags = CGROUPS_V2 then some SubsystemVariant.v2
  else none

/-- Synthetic `/proc/cgroups` with all five controllers enabled on
nonzero hierarchies. -/
def v1_proc_cgroups : List ProcCgroupsRow :=
  [⟨"cpuset", 2, true⟩, ⟨"cpu", 3, true⟩, ⟨"cpuacct", 4, true⟩,
   ⟨"memory", 5, true⟩, ⟨"pids", 6, true⟩]

/-- Synthetic `/proc/self/cgroup` resolving a cgroup path for each of the
five controllers. -/
def v1_self_cgroup : List ProcSelfCgroupRow :=
  [⟨2, ["cpuset"], "/"⟩, ⟨3, ["cpu", "cpuacct"], "/"⟩,
   ⟨5, ["memory"], "/"⟩, ⟨6, ["pids"], "/"⟩]

/-- Synthetic `/proc/self/mountinfo` with a cgroup v1 mount for each of
the five controllers. -/
def v1_mountinfo : List MountInfoRow :=
  [⟨"/", "/sys/fs/cgroup/cpuset", "cgroup", ["cpuset"]⟩,
   ⟨"/", "/sys/fs/cgroup/cpu,cpuacct", "cgroup", ["cpu", "cpuacct"]⟩,
   ⟨"/", "/sys/fs/cgroup/memory", "cgroup", ["memory"]⟩,
   ⟨"/", "/sys/fs/cgroup/pids", "cgroup", ["pids"]⟩]

/-- Synthetic `/proc/cgroups` of a unified layout: every controller on
hierarchy 0. -/
def v2_proc_cgroups : List ProcCgroupsRow :=
  [⟨"cpuset", 0, true⟩, ⟨"cpu", 0, true⟩, ⟨"cpuacct", 0, true⟩,
   ⟨"memory", 0, true⟩, ⟨"pids", 0, true⟩]

/-- Synthetic `/proc/self/cgroup` of a unified layout: the single
`0::/` line. -/
def v2_self_cgroup : List ProcSelfCgroupRow := [⟨0, [], "/"⟩]

/-- Synthetic `/proc/self/mountinfo` of a unified layout: one `cgroup2`
mount. -/
def v2_mountinfo : List MountInfoRow :=
  [⟨"/", "/sys/fs/cgroup", "cgroup2", []⟩]

/-- Synthetic `/proc/self/mountinfo` of a broken v1 layout: the mount of
the required memory controller is absent. -/
def no_mount_mountinfo : List MountInfoRow :=
  [⟨"/", "/sys/fs/cgroup/cpuset", "cgroup", ["cpuset"]⟩,
   ⟨"/", "/sys/fs/cgroup/cpu,cpuacct", "cgroup", ["cpu", "cpuacct"]⟩,
   ⟨"/", "/sys/fs/cgroup/pids", "cgroup", ["pids"]⟩]

end CgroupLinux

namespace CgroupLinux

/-- Claim C4: a freshly constructed `CachedMetric` reports
`should_check_metric() = true` at every counter value above `min_jlong`
(the deadline starts in the infinite past); immediately after
`set_value(v, t)` with `t > 0` it reports `false`; it reports `true` at a
later counter value exactly when that value has advanced past the stored
deadline (counter-at-set-value + t); and `value()` returns the stored `v`
throughout. -/
theorem cachedMetric_lifecycle (m : CachedMetric) (v t c cq : Int)
    (hcq : min_jlong < cq) (ht : 0 < t) :
    CachedMetric.init.should_check_metric cq = true ∧
    (m.set_value v t c).should_check_metric c = false ∧
    ((m.set_value v t c).should_check_metric cq = true ↔ c + t < cq) ∧
    (m.set_value v t c).value = v := by
  refine ⟨?_, ?_, ?_, rfl⟩
  · simp [CachedMetric.init, CachedMetric.should_check_metric]
    exact hcq
  · simp [CachedMetric.set_value, CachedMetric.should_check_metric]
    omega
  · simp [CachedMetric.set_value, CachedMetric.should_check_metric]

/-- Witness for C4 at concrete inputs: fresh metric at counter 0, then
`set_value 7 100` at counter 50; recheck is due at counter 151 but not at 50. -/
theorem cachedMetric_lifecycle_witness :
    CachedMetric.init.should_check_metric 0 = true ∧
    (CachedMetric.init.set_value 7 100 50).should_check_metric 50 = false ∧
    ((CachedMetric.init.set_value 7 100 50).should_check_metric 151 = true ↔
      (50 : Int) + 100 < 151) ∧
    (CachedMetric.init.set_value 7 100 50).value = 7 :=
  cachedMetric_lifecycle CachedMetric.init 7 100 50 0 (by decide) (by decide) |>.imp id
    (fun h => ⟨h.1, cachedMetric_lifecycle CachedMetric.init 7 100 50 151 (by decide)
      (by decide) |>.2.2⟩)

/-- Claim C10: a freshly constructed `CgroupInfo` is in an explicit
"no data" state: all four pointer fields null, `enabled` and
`data_complete` false, and `hierarchy_id = -1` — in particular not `0` —
so an unpopulated record cannot pass for a controller on hierarchy 0 nor
for one with complete data. -/
theorem cgroupInfo_init_no_data :
    CgroupInfo.init._name = none ∧
    CgroupInfo.init._cgroup_path = none ∧
    CgroupInfo.init._root_mount_path = none ∧
    CgroupInfo.init._mount_path = none ∧
    CgroupInfo.init._enabled = false ∧
    CgroupInfo.init._data_complete = false ∧
    CgroupInfo.init._hierarchy_id = -1 ∧
    CgroupInfo.init._hierarchy_id ≠ 0 := by
  refine ⟨rfl, rfl, rfl, rfl, rfl, rfl, rfl, by decide⟩

/-- Claim C5: the single-line reader fails with `OSCONTAINER_ERROR` when
the file cannot be opened or is empty; otherwise only the first line is
consulted (the rest of the file is irrelevant), success happens exactly
when scanning the first line matches one value, the matched value is
returned, and a failed scan yields `OSCONTAINER_ERROR` with nothing
stored. -/
theorem cg_file_contents_impl_spec {T : Type} (file : Option (List String))
    (scan : String → Option T) :
    ((file = none ∨ file = some []) →
      cg_file_contents_impl file scan = (OSCONTAINER_ERROR, none)) ∧
    (∀ line rest rest', cg_file_contents_impl (some (line :: rest)) scan =
      cg_file_contents_impl (some (line :: rest')) scan) ∧
    (∀ line rest,
      ((cg_file_contents_impl (some (line :: rest)) scan).1 = 0 ↔ (scan line).isSome) ∧
      (∀ v, scan line = some v →
        cg_file_contents_impl (some (line :: rest)) scan = (0, some v)) ∧
      (scan line = none →
        cg_file_contents_impl (some (line :: rest)) scan = (OSCONTAINER_ERROR, none))) := by
  refine ⟨?_, ?_, ?_⟩
  · rintro (rfl | rfl) <;> rfl
  · intro line rest rest'
    simp [cg_file_contents_impl]
  · intro line rest
    refine ⟨?_, ?_, ?_⟩
    · cases h : scan line <;> simp [cg_file_contents_impl, h, OSCONTAINER_ERROR]
    · intro v hv; simp [cg_file_contents_impl, hv]
    · intro hv; simp [cg_file_contents_impl, hv]

/-- Witness for C5 at concrete inputs: a file whose first line is
`"42\n"` scans to 42 under the decimal scanner (later lines ignored),
and an empty file fails. -/
theorem cg_file_contents_impl_spec_witness :
    cg_file_contents_impl (some ["42\n", "99\n"]) scan_dec = (0, some 42) ∧
    cg_file_contents_impl (some ([] : List String)) scan_dec =
      (OSCONTAINER_ERROR, none) :=
  ⟨((cg_file_contents_impl_spec (some ["42\n", "99\n"]) scan_dec).2.2 "42\n"
      ["99\n"]).2.1 42 (by decide),
    (cg_file_contents_impl_spec (some []) scan_dec).1 (Or.inr rfl)⟩

theorem cg_multi_line_loop_fst_eq_zero {T : Type} (key : String)
    (scan : String → Option T) (ls : List String) :
    (cg_multi_line_loop key scan ls).1 = 0 ↔
      ∃ l ∈ ls, (line_scan_result key scan l).isSome := by
  induction ls with
  | nil => simp [cg_multi_line_loop, OSCONTAINER_ERROR]
  | cons line rest ih =>
    simp only [cg_multi_line_loop]
    cases h : line_scan_result key scan line with
    | some v =>
      constructor
      · exact fun _ => ⟨line, by simp, by simp [h]⟩
      · exact fun _ => rfl
    | none =>
      rw [ih]
      constructor
      · rintro ⟨l, hl, hs⟩
        exact ⟨l, List.mem_cons_of_mem _ hl, hs⟩
      · rintro ⟨l, hl, hs⟩
        rcases List.mem_cons.mp hl with rfl | hl
        · simp [h] at hs
        · exact ⟨l, hl, hs⟩

theorem cg_multi_line_loop_first_match {T : Type} (key : String)
    (scan : String → Option T) (pre : List String) (line : String)
    (post : List String) (v : T)
    (hpre : ∀ l ∈ pre, line_scan_result key scan l = none)
    (hline : line_scan_result key scan line = some v) :
    cg_multi_line_loop key scan (pre ++ line :: post) = (0, some v) := by
  induction pre with
  | nil => simp only [List.nil_append, cg_multi_line_loop, hline]
  | cons p ps ih =>
    have hp : line_scan_result key scan p = none := hpre p (by simp)
    simp only [List.cons_append, cg_multi_line_loop, hp]
    exact ih (fun l hl => hpre l (by simp [hl]))

theorem cg_multi_line_loop_no_match {T : Type} (key : String)
    (scan : String → Option T) (ls : List String)
    (h : ∀ l ∈ ls, line_scan_result key scan l = none) :
    cg_multi_line_loop key scan ls = (OSCONTAINER_ERROR, none) := by
  induction ls with
  | nil => rfl
  | cons line rest ih =>
    have h0 := h line (by simp)
    simp only [cg_multi_line_loop, h0]
    exact ih (fun l hl => h l (by simp [hl]))

theorem cg_file_multi_line_impl_eq_loop {T : Type} (key : String)
    (scan : String → Option T) (lines : List String) :
    cg_file_multi_line_impl (some lines) key scan =
      cg_multi_line_loop key scan lines := by
  cases lines <;> rfl

/-- Claim C2: the multi-line reader succeeds (status 0) exactly when some
line passes the key test (key is a prefix immediately followed by white
space that is not the terminating newline) and its remainder scans to one
value; the first such successfully scanning line determines the returned
value whatever its position; a line whose after-key character is not white
space (in particular, where the key is a proper prefix of a longer token
such as `cpu` in `cpu.shares`) never matches; and when no line matches the
reader returns `OSCONTAINER_ERROR`. -/
theorem cg_file_multi_line_impl_spec {T : Type} (lines : List String)
    (key : String) (scan : String → Option T) :
    ((cg_file_multi_line_impl (some lines) key scan).1 = 0 ↔
      ∃ l ∈ lines, (line_scan_result key scan l).isSome) ∧
    (∀ pre line post v, lines = pre ++ line :: post →
      (∀ l ∈ pre, line_scan_result key scan l = none) →
      line_scan_result key scan line = some v →
      cg_file_multi_line_impl (some lines) key scan = (0, some v)) ∧
    (∀ line, c_isspace (char_after_key line key) = false →
      line_scan_result key scan line = none) ∧
    ((∀ l ∈ lines, line_scan_result key scan l = none) →
      cg_file_multi_line_impl (some lines) key scan = (OSCONTAINER_ERROR, none)) := by
  refine ⟨?_, ?_, ?_, ?_⟩
  · rw [cg_file_multi_line_impl_eq_loop]
    exact cg_multi_line_loop_fst_eq_zero key scan lines
  · rintro pre line post v rfl hpre hline
    rw [cg_file_multi_line_impl_eq_loop]
    exact cg_multi_line_loop_first_match key scan pre line post v hpre hline
  · intro line hsp
    simp [line_scan_result, line_key_match, hsp]
  · intro h
    rw [cg_file_multi_line_impl_eq_loop]
    exact cg_multi_line_loop_no_match key scan lines h

/-- Witness for C2 at concrete inputs: in a file whose earlier lines hold
the longer token `cpu.shares` and an unrelated key, the key `cpu` is found
on the third line with value 7, and the `cpu.shares` line itself never
matches the key `cpu`. -/
theorem cg_file_multi_line_impl_spec_witness :
    cg_file_multi_line_impl (some ["cpu.shares 100\n", "memory 5\n", "cpu 7\n"])
        "cpu" scan_dec = (0, some 7) ∧
    line_scan_result "cpu" scan_dec "cpu.shares 100\n" = none :=
  ⟨(cg_file_multi_line_impl_spec ["cpu.shares 100\n", "memory 5\n", "cpu 7\n"]
      "cpu" scan_dec).2.1 ["cpu.shares 100\n", "memory 5\n"] "cpu 7\n" [] 7 rfl
      (by decide) (by decide),
    (cg_file_multi_line_impl_spec [] "cpu" scan_dec).2.2.1 "cpu.shares 100\n"
      (by decide)⟩

/-- Claim C7: each programmer-misuse input to the controller-level wrappers
— a null controller, a controller with a null subsystem path, a null key,
scan format or return pointer, or a combined path longer than `MAXPATHLEN`
— makes `cg_file_contents_ctrl` and `cg_file_multi_line_ctrl` return
`OSCONTAINER_ERROR` with nothing stored (the functions are total, so no
crash and no dereference of the invalid argument occurs). -/
theorem ctrl_wrappers_misuse {T : Type} (fs : String → Option (List String))
    (c : Option CgroupController) (filename : String) (key : Option String)
    (scan_fmt : Option (String → Option T)) (rv : Bool) :
    (c = none →
      cg_file_contents_ctrl fs c filename scan_fmt rv = (OSCONTAINER_ERROR, none) ∧
      cg_file_multi_line_ctrl fs c filename key scan_fmt rv = (OSCONTAINER_ERROR, none)) ∧
    (∀ ctrl, c = some ctrl → ctrl.subsystem_path = none →
      cg_file_contents_ctrl fs c filename scan_fmt rv = (OSCONTAINER_ERROR, none) ∧
      cg_file_multi_line_ctrl fs c filename key scan_fmt rv = (OSCONTAINER_ERROR, none)) ∧
    (scan_fmt = none →
      cg_file_contents_ctrl fs c filename scan_fmt rv = (OSCONTAINER_ERROR, none) ∧
      cg_file_multi_line_ctrl fs c filename key scan_fmt rv = (OSCONTAINER_ERROR, none)) ∧
    (key = none →
      cg_file_multi_line_ctrl fs c filename key scan_fmt rv = (OSCONTAINER_ERROR, none)) ∧
    (rv = false →
      cg_file_contents_ctrl fs c filename scan_fmt rv = (OSCONTAINER_ERROR, none) ∧
      cg_file_multi_line_ctrl fs c filename key scan_fmt rv = (OSCONTAINER_ERROR, none)) ∧
    (∀ ctrl sp, c = some ctrl → ctrl.subsystem_path = some sp →
      (sp ++ filename).length > MAXPATHLEN →
      cg_file_contents_ctrl fs c filename scan_fmt rv = (OSCONTAINER_ERROR, none) ∧
      cg_file_multi_line_ctrl fs c filename key scan_fmt rv = (OSCONTAINER_ERROR, none)) := by
  refine ⟨?_, ?_, ?_, ?_, ?_, ?_⟩
  · rintro rfl
    exact ⟨rfl, rfl⟩
  · rintro ctrl rfl hsp
    constructor
    · simp [cg_file_contents_ctrl, hsp]
    · simp [cg_file_multi_line_ctrl, hsp]
  · rintro rfl
    constructor
    · cases c with
      | none => rfl
      | some ctrl => cases hs : ctrl.subsystem_path <;>
          simp [cg_file_contents_ctrl, hs]
    · cases c with
      | none => rfl
      | some ctrl =>
        cases hs : ctrl.subsystem_path <;> cases key <;>
          simp [cg_file_multi_line_ctrl, hs]
  · rintro rfl
    cases c with
    | none => rfl
    | some ctrl =>
      cases hs : ctrl.subsystem_path <;> cases scan_fmt <;>
        simp [cg_file_multi_line_ctrl, hs]
  · rintro rfl
    constructor
    · cases c with
      | none => rfl
      | some ctrl => cases hs : ctrl.subsystem_path <;> cases scan_fmt <;>
          simp [cg_file_contents_ctrl, hs]
    · cases c with
      | none => rfl
      | some ctrl =>
        cases hs : ctrl.subsystem_path <;> cases scan_fmt <;> cases key <;>
          simp [cg_file_multi_line_ctrl, hs]
  · rintro ctrl sp rfl hsp hlen
    have hlen' : ¬ (sp.length + filename.length ≤ MAXPATHLEN) := by
      rw [String.length_append] at hlen
      omega
    constructor
    · cases scan_fmt <;> cases rv <;>
        (simp [cg_file_contents_ctrl, hsp, hlen]
         try exact fun h => absurd h hlen')
    · cases scan_fmt <;> cases key <;> cases rv <;>
        (simp [cg_file_multi_line_ctrl, hsp, hlen]
         try exact fun h => absurd h hlen')

/-- Witness for C7 at concrete inputs: with no file system entries, a null
controller makes both wrappers fail, and a controller whose subsystem path
is null makes the single-line wrapper fail. -/
theorem ctrl_wrappers_misuse_witness :
    cg_file_contents_ctrl (T := Int) (fun _ => none) none "/cpu.max"
        (some scan_dec) true = (OSCONTAINER_ERROR, none) ∧
    cg_file_contents_ctrl (T := Int) (fun _ => none)
        (some (CgroupController.mkController "/" "/sys/fs/cgroup")) "/cpu.max"
        (some scan_dec) true = (OSCONTAINER_ERROR, none) :=
  ⟨((ctrl_wrappers_misuse (fun _ => none) none "/cpu.max" none
        (some scan_dec) true).1 rfl).1,
    ((ctrl_wrappers_misuse (fun _ => none)
        (some (CgroupController.mkController "/" "/sys/fs/cgroup")) "/cpu.max" none
        (some scan_dec) true).2.1 (CgroupController.mkController "/" "/sys/fs/cgroup")
        rfl rfl).1⟩

theorem ceil_div_spec (a b : Int) (hb : 0 < b) :
    a ≤ ceil_div a b * b ∧ (ceil_div a b - 1) * b < a := by
  unfold ceil_div
  have h1 := Int.ediv_add_emod (a + b - 1) b
  have h2 := Int.emod_nonneg (a + b - 1) (by omega : b ≠ 0)
  have h3 := Int.emod_lt_of_pos (a + b - 1) hb
  have key : ((a + b - 1) / b) * b = a + b - 1 - (a + b - 1) % b := by
    linear_combination h1
  have expand : ((a + b - 1) / b - 1) * b = ((a + b - 1) / b) * b - b := by ring
  constructor
  · rw [key]
    omega
  · rw [expand, key]
    omega

/-- Claim C3 (spec-modelled): with quota and period both set and positive,
`active_processor_count` returns the ceiling of quota over period — the
least `n` with `quota ≤ n * period` — clamped to at least 1 and at most
the host count; with quota or period not positive but shares set (above
the `-1` sentinel) it returns the ceiling of shares over `PER_CPU_SHARES`
clamped the same way; and with neither set it returns the host processor
count unmodified. -/
theorem active_processor_count_spec (host quota period shares : Int) :
    (0 < quota → 0 < period →
      ∃ n, quota ≤ n * period ∧ (n - 1) * period < quota ∧
        active_processor_count host quota period shares = max 1 (min n host)) ∧
    (¬ (0 < quota ∧ 0 < period) → -1 < shares →
      ∃ n, shares ≤ n * PER_CPU_SHARES ∧ (n - 1) * PER_CPU_SHARES < shares ∧
        active_processor_count host quota period shares = max 1 (min n host)) ∧
    (¬ (0 < quota ∧ 0 < period) → shares ≤ -1 →
      active_processor_count host quota period shares = host) := by
  refine ⟨?_, ?_, ?_⟩
  · intro hq hp
    obtain ⟨hle, hlt⟩ := ceil_div_spec quota period hp
    exact ⟨ceil_div quota period, hle, hlt, by simp [active_processor_count, hq, hp]⟩
  · intro hqp hs
    have hpos : (0 : Int) < PER_CPU_SHARES := by
      simp [PER_CPU_SHARES]
    obtain ⟨hle, hlt⟩ := ceil_div_spec shares PER_CPU_SHARES hpos
    exact ⟨ceil_div shares PER_CPU_SHARES, hle, hlt,
      by simp [active_processor_count, hqp, hs]⟩
  · intro hqp hs
    have hns : ¬ (-1 : Int) < shares := by omega
    simp [active_processor_count, hqp, hns]

/-- Witness for C3 at the spec's concrete inputs on an 8-processor host:
quota 200000 over period 100000 yields 2, shares 2048 alone yields 2, and
nothing set yields the host count 8. -/
theorem active_processor_count_spec_witness :
    active_processor_count 8 200000 100000 (-1) = 2 ∧
    active_processor_count 8 (-1) (-1) 2048 = 2 ∧
    active_processor_count 8 (-1) (-1) (-1) = 8 := by
  refine ⟨?_, ?_,
    (active_processor_count_spec 8 (-1) (-1) (-1)).2.2 (by decide) (by decide)⟩
  · obtain ⟨n, h1, h2, h3⟩ :=
      (active_processor_count_spec 8 200000 100000 (-1)).1 (by decide) (by decide)
    have hn : n = 2 := by omega
    rw [h3, hn]
    decide
  · obtain ⟨n, h1, h2, h3⟩ :=
      (active_processor_count_spec 8 (-1) (-1) 2048).2.1 (by decide) (by decide)
    simp only [PER_CPU_SHARES] at h1 h2
    have hn : n = 2 := by omega
    rw [h3, hn]
    decide

/-- Claim C8 (spec-modelled): whenever the requested segment count exceeds
the actual depth of the stored cgroup path — or no cgroup path is stored
at all — `trim_path` returns `false` and leaves the controller unchanged,
so `_path` stays unset and the caller obtains no guessed path; the
function is total, so no out-of-bounds read or panic occurs. -/
theorem trim_path_exceeding_depth (c : CgroupController) (n : Nat) :
    (∀ cg, c._cgroup_path = some cg → path_depth cg < n →
      (c.trim_path n).1 = false ∧ (c.trim_path n).2 = c) ∧
    (c._cgroup_path = none →
      (c.trim_path n).1 = false ∧ (c.trim_path n).2 = c) := by
  constructor
  · intro cg hcg hdepth
    have hd : (path_segments cg).length < n := hdepth
    have htrim : trim_segments_from_path cg n = none := by
      simp [trim_segments_from_path, hd]
    exact ⟨by simp [CgroupController.trim_path, hcg, htrim],
      by simp [CgroupController.trim_path, hcg, htrim]⟩
  · intro hcg
    exact ⟨by simp [CgroupController.trim_path, hcg],
      by simp [CgroupController.trim_path, hcg]⟩

/-- Witness for C8 at a concrete input: trimming 5 segments from the
depth-2 path `/a/b` fails and leaves the controller unchanged. -/
theorem trim_path_exceeding_depth_witness :
    (({ CgroupController.mkController "/" "/sys/fs/cgroup" with
        _cgroup_path := some "/a/b" }).trim_path 5).1 = false ∧
    (({ CgroupController.mkController "/" "/sys/fs/cgroup" with
        _cgroup_path := some "/a/b" }).trim_path 5).2 =
      { CgroupController.mkController "/" "/sys/fs/cgroup" with
        _cgroup_path := some "/a/b" } :=
  (trim_path_exceeding_depth
      { CgroupController.mkController "/" "/sys/fs/cgroup" with
        _cgroup_path := some "/a/b" } 5).1 "/a/b" rfl (by decide)

/-- Claim C9 (spec-modelled): resolution of a `(root, mountPoint,
cgroupPath)` triple is deterministic and idempotent — a second
`set_subsystem_path` on the already-resolved controller changes nothing —
the stored path equals the mount point concatenated with the trimmed
cgroup path (trimmed exactly when the mount root is a nontrivial prefix of
the cgroup path), and once set the path never changes. -/
theorem set_subsystem_path_idempotent (root mount cg : String) :
    ((CgroupController.mkController root mount).set_subsystem_path cg)._path =
      resolve_path root mount cg ∧
    (((CgroupController.mkController root mount).set_subsystem_path
        cg).set_subsystem_path cg) =
      (CgroupController.mkController root mount).set_subsystem_path cg ∧
    (¬ (root ≠ "/" ∧ root.toList.isPrefixOf cg.toList) →
      ((CgroupController.mkController root mount).set_subsystem_path cg)._path =
        some (mount ++ cg)) ∧
    ((root ≠ "/" ∧ root.toList.isPrefixOf cg.toList) →
      ((CgroupController.mkController root mount).set_subsystem_path cg)._path =
        (trim_segments_from_path cg (path_depth root)).map
          (fun trimmed => mount ++ trimmed)) ∧
    (∀ q, ((CgroupController.mkController root mount).set_subsystem_path
        cg)._path = some q →
      (((CgroupController.mkController root mount).set_subsystem_path
          cg).set_subsystem_path cg)._path = some q) := by
  have hfst : ((CgroupController.mkController root mount).set_subsystem_path
      cg)._path = resolve_path root mount cg := by
    simp [CgroupController.set_subsystem_path, CgroupController.mkController]
  have hidem : (((CgroupController.mkController root mount).set_subsystem_path
      cg).set_subsystem_path cg) =
      (CgroupController.mkController root mount).set_subsystem_path cg := by
    cases hres : resolve_path root mount cg with
    | none =>
      simp [CgroupController.set_subsystem_path, CgroupController.mkController, hres]
    | some p =>
      simp [CgroupController.set_subsystem_path, CgroupController.mkController, hres]
  refine ⟨hfst, hidem, ?_, ?_, ?_⟩
  · intro hcond
    rw [hfst]
    unfold resolve_path
    rw [if_neg hcond]
  · intro hcond
    rw [hfst]
    unfold resolve_path
    rw [if_pos hcond]
  · intro q hq
    rw [hidem, hq]

/-- Witness for C9 at a concrete triple: with trivial root `/`, mount
point `/sys/fs/cgroup/memory` and cgroup path `/app`, the resolved path is
their concatenation and a second resolution changes nothing. -/
theorem set_subsystem_path_idempotent_witness :
    ((CgroupController.mkController "/" "/sys/fs/cgroup/memory").set_subsystem_path
        "/app")._path = some "/sys/fs/cgroup/memory/app" ∧
    (((CgroupController.mkController "/" "/sys/fs/cgroup/memory").set_subsystem_path
        "/app").set_subsystem_path "/app") =
      (CgroupController.mkController "/" "/sys/fs/cgroup/memory").set_subsystem_path
        "/app" :=
  ⟨(set_subsystem_path_idempotent "/" "/sys/fs/cgroup/memory" "/app").2.2.1
      (by decide),
    (set_subsystem_path_idempotent "/" "/sys/fs/cgroup/memory" "/app").2.1⟩

theorem accessor_of_read_spec (r : Option Int)
    (h : ∀ v, r = some v → min_jlong ≤ v ∧ v ≤ max_jlong) :
    (min_jlong ≤ accessor_of_read r ∧ accessor_of_read r ≤ max_jlong) ∧
    (r = none → accessor_of_read r = -1) ∧
    (∀ v, r = some v → accessor_of_read r = v) := by
  cases r with
  | none =>
    refine ⟨⟨?_, ?_⟩, fun _ => rfl, fun v hv => by cases hv⟩
    · simp [accessor_of_read, min_jlong]
    · simp [accessor_of_read, max_jlong]
  | some v =>
    refine ⟨h v rfl, ?_, ?_⟩
    · intro hn
      cases hn
    · intro w hw
      cases hw
      rfl

/-- Claim C6 (spec-modelled): each of the thirteen numeric public
accessors of the facade is total — whatever the underlying read does, it
returns a value within the signed 64-bit range, a failed read surfaces as
the `-1` sentinel, and a successful read surfaces the read value itself;
no failure propagates past the immediate query. -/
theorem facade_accessors_total (s : CgroupSubsystem)
    (hrange : ∀ pr ∈ numeric_accessors, ∀ v, pr.2 s = some v →
      min_jlong ≤ v ∧ v ≤ max_jlong) :
    ∀ pr ∈ numeric_accessors,
      (min_jlong ≤ pr.1 s ∧ pr.1 s ≤ max_jlong) ∧
      (pr.2 s = none → pr.1 s = -1) ∧
      (∀ v, pr.2 s = some v → pr.1 s = v) := by
  intro pr hpr
  have h := hrange pr hpr
  simp only [numeric_accessors, List.mem_cons, List.not_mem_nil, or_false] at hpr
  rcases hpr with rfl | rfl | rfl | rfl | rfl | rfl | rfl | rfl | rfl | rfl |
    rfl | rfl | rfl <;>
    exact accessor_of_read_spec _ h

/-- Witness for C6 at a concrete state: with every underlying read failed,
the memory-limit and pids-max accessors both return the `-1` sentinel. -/
theorem facade_accessors_total_witness :
    CgroupSubsystem.memory_limit_in_bytes ⟨none, none, none, none, none,
      none, none, none, none, none, none, none, none⟩ = -1 ∧
    CgroupSubsystem.pids_max ⟨none, none, none, none, none, none, none,
      none, none, none, none, none, none⟩ = -1 := by
  have hrange : ∀ q ∈ numeric_accessors, ∀ v,
      q.2 ⟨none, none, none, none, none, none, none, none, none, none,
        none, none, none⟩ = some v → min_jlong ≤ v ∧ v ≤ max_jlong := by
    intro q hq v hv
    simp only [numeric_accessors, List.mem_cons, List.not_mem_nil, or_false] at hq
    rcases hq with rfl | rfl | rfl | rfl | rfl | rfl | rfl | rfl | rfl | rfl |
      rfl | rfl | rfl <;> cases hv
  have hmem1 : ((CgroupSubsystem.memory_limit_in_bytes,
      fun s : CgroupSubsystem => s.memory_limit_read) :
      (CgroupSubsystem → Int) × (CgroupSubsystem → Option Int)) ∈
      numeric_accessors := by
    unfold numeric_accessors
    exact List.Mem.tail _ (List.Mem.tail _ (List.Mem.tail _ (List.Mem.head _)))
  have hmem2 : ((CgroupSubsystem.pids_max,
      fun s : CgroupSubsystem => s.pids_max_read) :
      (CgroupSubsystem → Int) × (CgroupSubsystem → Option Int)) ∈
      numeric_accessors := by
    unfold numeric_accessors
    exact List.Mem.tail _ (List.Mem.tail _ (List.Mem.tail _ (List.Mem.tail _
      (List.Mem.tail _ (List.Mem.tail _ (List.Mem.tail _ (List.Mem.tail _
        (List.Mem.tail _ (List.Mem.tail _ (List.Mem.tail _
          (List.Mem.head _)))))))))))
  exact ⟨(facade_accessors_total _ hrange _ hmem1).2.1 rfl,
    (facade_accessors_total _ hrange _ hmem2).2.1 rfl⟩

/-- Claim C1 (spec-modelled): the detection state machine classifies a
synthetic layout with all five monitored controllers enabled and fully
resolved mount and cgroup paths as `CGROUPS_V1`; a unified
single-hierarchy layout as `CGROUPS_V2`; a layout whose required memory
controller mount is absent as `INVALID_CGROUPS_NO_MOUNT`; and for every
classification among the four invalid flags, subsystem construction
yields no subsystem at all. -/
theorem determine_type_classification :
    determine_type (some v1_proc_cgroups) (some v1_self_cgroup)
      (some v1_mountinfo) = CGROUPS_V1 ∧
    determine_type (some v2_proc_cgroups) (some v2_self_cgroup)
      (some v2_mountinfo) = CGROUPS_V2 ∧
    determine_type (some v1_proc_cgroups) (some v1_self_cgroup)
      (some no_mount_mountinfo) = INVALID_CGROUPS_NO_MOUNT ∧
    (∀ flags, flags ∈ [INVALID_CGROUPS_V1, INVALID_CGROUPS_V2,
        INVALID_CGROUPS_NO_MOUNT, INVALID_CGROUPS_GENERIC] →
      factory_create flags = none) :=
  ⟨by decide, by decide, by decide, by decide⟩

/-- Witness for C1 at a concrete flag: the `INVALID_CGROUPS_GENERIC`
classification yields no subsystem. -/
theorem determine_type_classification_witness :
    factory_create INVALID_CGROUPS_GENERIC = none :=
  determine_type_classification.2.2.2 INVALID_CGROUPS_GENERIC (by decide)

end CgroupLinux
